import Mathlib

/-!
Shallow embedding of the ETL pipeline core (validators, distributed lock,
warehouse loader) of the Automated-ETL-Pipeline-for-Financial-Analytics
repository, together with theorems settling the frozen claims about it.

Conventions:
* pandas DataFrames are modelled as a list of column names, a parallel list
  of column dtype strings, and a list of rows (each row a list of cell values);
* cell values are `Value` (null / integer / string); floating point data is
  modelled by integers, and the one fractional quantity compared against a
  threshold (a null percentage) is computed in `Rat`;
* Python dicts used as ordered rulesets are association lists;
* caller-supplied predicates (regex patterns, custom rules, cross-field
  comparisons, date parsers) are abstract functions; the ones the source
  wraps in try/except return `Except String _` so that a raising callable is
  representable;
* external effects (Redis commands, SQL execution) are modelled by explicit
  state passing or by oracle functions describing the outcome the external
  system reports.
-/

namespace ETL

/-- A cell value of a DataFrame: null (NaN/None), an integer, or a string. -/
inductive Value where
  | null : Value
  | int : Int → Value
  | str : String → Value
deriving DecidableEq, Repr

/-- Model of a pandas DataFrame: named, dtyped columns and a list of rows.
`dtypes` is parallel to `cols`; each row is parallel to `cols` as well. -/
structure DataFrame where
  cols : List String
  dtypes : List String
  rows : List (List Value)
deriving Repr

/-- `column in df.columns` -/
def DataFrame.hasCol (df : DataFrame) (c : String) : Bool :=
  df.cols.contains c

/-- Index of a column name. -/
def DataFrame.colIdx (df : DataFrame) (c : String) : Option Nat :=
  df.cols.indexOf? c

/-- `df[column]` as the list of the column's cell values (empty when absent). -/
def DataFrame.col (df : DataFrame) (c : String) : List Value :=
  match df.colIdx c with
  | none => []
  | some i => df.rows.map (fun r => r.getD i Value.null)

/-- `str(df[column].dtype)` (empty string when the column is absent). -/
def DataFrame.dtypeOf (df : DataFrame) (c : String) : String :=
  match df.colIdx c with
  | none => ""
  | some i => df.dtypes.getD i ""

/-- `df[column].isnull().sum()` over a column's values. -/
def nullCount (l : List Value) : Nat :=
  l.count Value.null

/-- One entry of `ValidationResult.error_details`; each constructor is one of
the dicts the source appends, carrying the fields the claims depend on. -/
inductive ErrorDetail where
  | minRowCount (expected actual : Nat)
  | requiredColumns (missing : List String)
  | nullThreshold (violations : List (String × Nat))
  | expectedRecordCount (expected actual : Nat)
  | valueRange (column : String) (violations : Nat)
  | categoricalValues (column : String) (violations : Nat)
  | regexPattern (column : String) (violations : Nat)
  | customRule (column : String) (violations : Nat)
  | dataType (column expected actual : String)
  | uniqueness (column : String) (duplicates : Nat)
  | dateFormat (column : String) (invalidCount : Nat)
  | crossField (column1 column2 : String) (violations : Nat)
  | missingColumns (columns : List String)
  | extraColumns (columns : List String)
  | nullability (column : String) (nullCount : Nat)
  | schemaType (column expected actual : String)
deriving DecidableEq, Repr

/-- `ValidationResult` dataclass (metadata, a free-form dict irrelevant to the
claims, is not carried). -/
structure ValidationResult where
  validator_name : String
  validation_type : String
  passed : Bool
  passed_records : Nat
  failed_records : Nat
  total_records : Nat
  error_details : List ErrorDetail
deriving DecidableEq, Repr

/-! ## CompletenessValidator.validate (src/etl/validators/completeness.py) -/

/-- Core of `CompletenessValidator.validate`: the computed `ValidationResult`,
before the shared log/strict-mode post-processing.  The three conditionally
appended error entries are built as `Option`s, in the order the source appends
them, and the `passed` flag is false exactly when an append happened (the
source initializes `passed = True` and sets it to `False` next to each
append). -/
def completenessCore (df : DataFrame) (required_columns : List String)
    (null_threshold : Rat) (min_row_count : Nat) : ValidationResult :=
  let e1 : Option ErrorDetail :=
    if df.rows.length < min_row_count then
      some (ErrorDetail.minRowCount min_row_count df.rows.length)
    else none
  let missing := required_columns.filter (fun c => !(df.cols.contains c))
  let e2 : Option ErrorDetail :=
    if missing.isEmpty then none else some (ErrorDetail.requiredColumns missing)
  let nullViolations : List (String × Nat) := df.cols.filterMap (fun c =>
    let nc := nullCount (df.col c)
    let pct : Rat :=
      if df.rows.length > 0 then ((nc : Rat) / (df.rows.length : Rat)) * 100 else 0
    if pct > null_threshold then some (c, nc) else none)
  let e3 : Option ErrorDetail :=
    if nullViolations.isEmpty then none
    else some (ErrorDetail.nullThreshold nullViolations)
  let totalCells := df.rows.length * df.cols.length
  let nullCells := (df.cols.map (fun c => nullCount (df.col c))).sum
  { validator_name := "completeness_validator"
    validation_type := "completeness"
    passed := e1.isNone && e2.isNone && e3.isNone
    passed_records := totalCells - nullCells
    failed_records := nullCells
    total_records := totalCells
    error_details := e1.toList ++ e2.toList ++ e3.toList }

/-! ## AccuracyValidator.validate (src/etl/validators/accuracy.py) -/

/-- The mutable accumulation state of accuracy/consistency validation:
`passed_count`, `failed_count`, and the growing `error_details` list. -/
structure CheckState where
  pc : Nat
  fc : Nat
  errs : List ErrorDetail
deriving DecidableEq, Repr

/-- `df[column] < min_val` elementwise; null/mixed comparisons are false,
matching NaN comparison semantics. -/
def vlt : Value → Value → Bool
  | Value.int a, Value.int b => a < b
  | Value.str a, Value.str b => a < b
  | _, _ => false

/-- `str(x)` on a cell value (`str(nan) = "nan"`). -/
def vToStr : Value → String
  | Value.null => "nan"
  | Value.int i => toString i
  | Value.str s => s

/-- One iteration of the numeric-range loop of `AccuracyValidator.validate`:
rows outside `[min_val, max_val]` are violations; the error entry is appended
only when there is at least one violation, and `passed_count` grows by
`len(df) - len(violations)` either way. -/
def rangeStep (df : DataFrame) (s : CheckState) (p : String × Value × Value) : CheckState :=
  if df.hasCol p.1 then
    let v := ((df.col p.1).filter (fun x => vlt x p.2.1 || vlt p.2.2 x)).length
    { pc := s.pc + (df.rows.length - v)
      fc := if v > 0 then s.fc + v else s.fc
      errs := if v > 0 then s.errs ++ [ErrorDetail.valueRange p.1 v] else s.errs }
  else s

/-- One iteration of the categorical-membership loop: rows whose value is not
in the valid list are violations. -/
def catStep (df : DataFrame) (s : CheckState) (p : String × List Value) : CheckState :=
  if df.hasCol p.1 then
    let v := ((df.col p.1).filter (fun x => !(p.2.contains x))).length
    { pc := s.pc + (df.rows.length - v)
      fc := if v > 0 then s.fc + v else s.fc
      errs := if v > 0 then s.errs ++ [ErrorDetail.categoricalValues p.1 v] else s.errs }
  else s

/-- One iteration of the regex loop; the pattern is abstracted as the
predicate `df[column].astype(str).str.match(pattern)` evaluates per value. -/
def regexStep (df : DataFrame) (s : CheckState) (p : String × (String → Bool)) : CheckState :=
  if df.hasCol p.1 then
    let v := ((df.col p.1).filter (fun x => !(p.2 (vToStr x)))).length
    { pc := s.pc + (df.rows.length - v)
      fc := if v > 0 then s.fc + v else s.fc
      errs := if v > 0 then s.errs ++ [ErrorDetail.regexPattern p.1 v] else s.errs }
  else s

/-- One iteration of the custom-rule loop.  The source wraps the whole body in
try/except: a raising rule (`Except.error`) only logs and leaves the counts and
error details untouched.  On success the rule yields a boolean mask; rows where
the mask is false (`df[~mask]`) are violations. -/
def customStep (df : DataFrame) (s : CheckState)
    (p : String × (List Value → Except String (List Bool))) : CheckState :=
  if df.hasCol p.1 then
    match p.2 (df.col p.1) with
    | Except.error _ => s
    | Except.ok mask =>
      let v := (mask.filter (fun b => !b)).length
      { pc := s.pc + (df.rows.length - v)
        fc := if v > 0 then s.fc + v else s.fc
        errs := if v > 0 then s.errs ++ [ErrorDetail.customRule p.1 v] else s.errs }
  else s

/-- Core of `AccuracyValidator.validate`: folds the four check families in
source order; `total_records = passed_count + failed_count` and
`passed = len(error_details) == 0`, exactly as the source computes them. -/
def accuracyCore (df : DataFrame)
    (value_ranges : List (String × Value × Value))
    (categorical_values : List (String × List Value))
    (regex_patterns : List (String × (String → Bool)))
    (custom_rules : List (String × (List Value → Except String (List Bool)))) :
    ValidationResult :=
  let s1 := value_ranges.foldl (rangeStep df) ⟨0, 0, []⟩
  let s2 := categorical_values.foldl (catStep df) s1
  let s3 := regex_patterns.foldl (regexStep df) s2
  let s4 := custom_rules.foldl (customStep df) s3
  { validator_name := "accuracy_validator"
    validation_type := "accuracy"
    passed := s4.errs.isEmpty
    passed_records := s4.pc
    failed_records := s4.fc
    total_records := s4.pc + s4.fc
    error_details := s4.errs }

/-! ## ConsistencyValidator.validate (src/etl/validators/consistency.py) -/

/-- One iteration of the declared-dtype loop: a mismatch marks the whole
column's row count as failed, a match marks it all as passed. -/
def dtypeStep (df : DataFrame) (s : CheckState) (p : String × String) : CheckState :=
  if df.hasCol p.1 then
    if df.dtypeOf p.1 ≠ p.2 then
      { pc := s.pc
        fc := s.fc + df.rows.length
        errs := s.errs ++ [ErrorDetail.dataType p.1 p.2 (df.dtypeOf p.1)] }
    else { pc := s.pc + df.rows.length, fc := s.fc, errs := s.errs }
  else s

/-- `df[column].duplicated().sum()`: entries equal to an earlier entry,
first occurrences not counted. -/
def dupCount : List Value → List Value → Nat
  | _, [] => 0
  | seen, x :: xs => (if seen.contains x then 1 else 0) + dupCount (x :: seen) xs

/-- One iteration of the uniqueness loop. -/
def uniqueStep (df : DataFrame) (s : CheckState) (c : String) : CheckState :=
  if df.hasCol c then
    let d := dupCount [] (df.col c)
    if d > 0 then
      { pc := s.pc + (df.rows.length - d)
        fc := s.fc + d
        errs := s.errs ++ [ErrorDetail.uniqueness c d] }
    else { pc := s.pc + df.rows.length, fc := s.fc, errs := s.errs }
  else s

/-- One iteration of the date-format loop; the format is abstracted as the
per-value parse predicate.  If the whole column parses, all rows pass;
otherwise the per-value recount runs, and the source guards the error entry
with `if invalid_dates > 0` (adding nothing at all when the count is 0). -/
def dateStep (df : DataFrame) (s : CheckState) (p : String × (Value → Bool)) : CheckState :=
  if df.hasCol p.1 then
    if (df.col p.1).all p.2 then
      { pc := s.pc + df.rows.length, fc := s.fc, errs := s.errs }
    else
      let inv := ((df.col p.1).filter (fun x => !(p.2 x))).length
      if inv > 0 then
        { pc := s.pc + (df.rows.length - inv)
          fc := s.fc + inv
          errs := s.errs ++ [ErrorDetail.dateFormat p.1 inv] }
      else s
  else s

/-- One iteration of the cross-field loop.  As for custom rules, the source
wraps the body in try/except: a raising comparison function only logs and
leaves the state untouched.  On success, rows where the mask is false
(`(~mask).sum()`) are violations. -/
def crossStep (df : DataFrame) (s : CheckState)
    (p : String × String × (List Value → List Value → Except String (List Bool))) : CheckState :=
  if df.hasCol p.1 && df.hasCol p.2.1 then
    match p.2.2 (df.col p.1) (df.col p.2.1) with
    | Except.error _ => s
    | Except.ok mask =>
      let v := (mask.filter (fun b => !b)).length
      if v > 0 then
        { pc := s.pc + (df.rows.length - v)
          fc := s.fc + v
          errs := s.errs ++ [ErrorDetail.crossField p.1 p.2.1 v] }
      else { pc := s.pc + df.rows.length, fc := s.fc, errs := s.errs }
  else s

/-- Core of `ConsistencyValidator.validate`: folds the four check families in
source order; `total_records = passed_count + failed_count` and
`passed = len(error_details) == 0`. -/
def consistencyCore (df : DataFrame)
    (data_types : List (String × String))
    (unique_columns : List String)
    (date_formats : List (String × (Value → Bool)))
    (cross_field_rules : List (String × String × (List Value → List Value → Except String (List Bool)))) :
    ValidationResult :=
  let s1 := data_types.foldl (dtypeStep df) ⟨0, 0, []⟩
  let s2 := unique_columns.foldl (uniqueStep df) s1
  let s3 := date_formats.foldl (dateStep df) s2
  let s4 := cross_field_rules.foldl (crossStep df) s3
  { validator_name := "consistency_validator"
    validation_type := "consistency"
    passed := s4.errs.isEmpty
    passed_records := s4.pc
    failed_records := s4.fc
    total_records := s4.pc + s4.fc
    error_details := s4.errs }

/-! ## SchemaValidator.validate (src/etl/validators/schema.py) -/

/-- One declared column of an expected schema: `{type, nullable}`
(`nullable` defaults to true at the lookup site in the source). -/
structure SchemaDef where
  type? : Option String
  nullable : Bool
deriving DecidableEq, Repr

/-- Is `needle` a contiguous substring of `hay` (Python's `in` on strings),
decided on the underlying character lists. -/
def containsSeq (needle hay : List Char) : Bool :=
  (List.range (hay.length + 1)).any (fun i => List.isPrefixOf needle (hay.drop i))

/-- ASCII `str.lower()` on one character. -/
def charLower (c : Char) : Char :=
  if 'A' ≤ c && c ≤ 'Z' then Char.ofNat (c.toNat + 32) else c

/-- ASCII `str.lower()` (the dtype names compared here are ASCII). -/
def strLower (s : String) : String :=
  ⟨s.data.map charLower⟩

/-- `SchemaValidator._is_type_compatible`: the type-family table, checked by
substring membership of a family member in the actual dtype string, with
case-insensitive equality as the fallback. -/
def isTypeCompatible (actual expected : String) : Bool :=
  let typeMappings : List (String × List String) :=
    [("int", ["int64", "int32", "int16", "int8"]),
     ("float", ["float64", "float32", "float16"]),
     ("string", ["object", "string"]),
     ("bool", ["bool"]),
     ("datetime", ["datetime64", "datetime64[ns]"])]
  match typeMappings.find? (fun q => q.1 = strLower expected) with
  | some q => q.2.any (fun a => containsSeq a.data actual.data)
  | none => strLower actual = strLower expected

/-- Entries the per-column loop of `SchemaValidator.validate` appends for one
declared column: the nullability entry, then the type-compatibility entry
(`if expected_type:` is falsy for both a missing and an empty type string). -/
def schemaColEntries (df : DataFrame) (p : String × SchemaDef) : List ErrorDetail :=
  if df.hasCol p.1 then
    (if !p.2.nullable && nullCount (df.col p.1) > 0 then
      [ErrorDetail.nullability p.1 (nullCount (df.col p.1))]
     else []) ++
    (match p.2.type? with
     | none => []
     | some t =>
       if t.isEmpty then []
       else if !(isTypeCompatible (df.dtypeOf p.1) t) then
         [ErrorDetail.schemaType p.1 t (df.dtypeOf p.1)]
       else [])
  else []

/-- Core of `SchemaValidator.validate`.  The `passed` flag starts true and is
set false next to each append, so it is false exactly when the missing-columns
entry, the extra-columns entry, or any per-column entry exists. -/
def schemaCore (df : DataFrame) (expected_schema : List (String × SchemaDef))
    (allow_extra_columns : Bool) : ValidationResult :=
  let expectedCols := expected_schema.map Prod.fst
  let missing := expectedCols.filter (fun c => !(df.cols.contains c))
  let eMissing : Option ErrorDetail :=
    if missing.isEmpty then none else some (ErrorDetail.missingColumns missing)
  let extra := df.cols.filter (fun c => !(expectedCols.contains c))
  let eExtra : Option ErrorDetail :=
    if allow_extra_columns then none
    else if extra.isEmpty then none else some (ErrorDetail.extraColumns extra)
  let perCol := expected_schema.flatMap (schemaColEntries df)
  { validator_name := "schema_validator"
    validation_type := "schema"
    passed := eMissing.isNone && eExtra.isNone && perCol.isEmpty
    passed_records :=
      if eMissing.isNone && eExtra.isNone && perCol.isEmpty then df.rows.length else 0
    failed_records :=
      if eMissing.isNone && eExtra.isNone && perCol.isEmpty then 0 else df.rows.length
    total_records := df.rows.length
    error_details := eMissing.toList ++ eExtra.toList ++ perCol }

/-! ## BaseValidator.log_result / raise_if_failed (src/etl/validators/base.py)

Every concrete `validate` ends with `self.log_result(result);
self.raise_if_failed(result); return result`.  The observable events of that
tail (the structured summary log, then possibly the strict-mode raise) are
modelled as an ordered event list next to the call's outcome. -/

/-- Observable events of the validation post-processing. -/
inductive VEvent where
  | logSummary (r : ValidationResult)
  | raised (msg : String)
deriving DecidableEq, Repr

/-- The strict-mode failure message of `BaseValidator.raise_if_failed`. -/
def failMsg (r : ValidationResult) : String :=
  "Validation failed: " ++ r.validator_name ++ " - " ++ r.validation_type ++
    ". Failed records: " ++ toString r.failed_records ++ "/" ++ toString r.total_records

/-- `log_result` followed by `raise_if_failed` on an already computed result:
the summary is always logged first; then, only in strict mode on a non-passing
result, a `ValueError` is raised; otherwise the result is returned. -/
def finishValidate (strict_mode : Bool) (r : ValidationResult) :
    List VEvent × Except String ValidationResult :=
  if strict_mode && !r.passed then
    ([VEvent.logSummary r, VEvent.raised (failMsg r)], Except.error (failMsg r))
  else
    ([VEvent.logSummary r], Except.ok r)

/-- `CompletenessValidator.validate`, result computation plus shared tail. -/
def completenessValidate (strict_mode : Bool) (df : DataFrame)
    (required_columns : List String) (null_threshold : Rat) (min_row_count : Nat) :
    List VEvent × Except String ValidationResult :=
  finishValidate strict_mode (completenessCore df required_columns null_threshold min_row_count)

/-- `AccuracyValidator.validate`, result computation plus shared tail. -/
def accuracyValidate (strict_mode : Bool) (df : DataFrame)
    (value_ranges : List (String × Value × Value))
    (categorical_values : List (String × List Value))
    (regex_patterns : List (String × (String → Bool)))
    (custom_rules : List (String × (List Value → Except String (List Bool)))) :
    List VEvent × Except String ValidationResult :=
  finishValidate strict_mode
    (accuracyCore df value_ranges categorical_values regex_patterns custom_rules)

/-! ## DistributedLock (src/etl/utils/distributed_lock.py)

The Redis key space is modelled as an association list from key to stored
token; the Lua compare-and-delete of `release` acts on it atomically.  The
outcomes of the repeated `SET ... NX EX` attempts inside `acquire` depend on
concurrent activity of other processes, so they are abstracted as an oracle
`attempts : Nat → Bool` giving the result of the i-th attempt; the elapsed
wall-clock time before the i-th timeout check is `i * retry_interval` (one
`time.sleep(retry_interval)` per completed iteration). -/

/-- The lock handle: namespaced name, unique owner token, lease duration
(`timeout` in the constructor) and retry interval. -/
structure LockHandle where
  name : String
  token : String
  leaseTimeout : Nat
  retryInterval : Nat
deriving DecidableEq, Repr

/-- The lock store: key to currently stored owner token. -/
abbrev Store := List (String × String)

/-- `GET key` on the store. -/
def storeGet : Store → String → Option String
  | [], _ => none
  | p :: t, k => if p.1 = k then some p.2 else storeGet t k

/-- `DEL key` on the store. -/
def storeDel : Store → String → Store
  | [], _ => []
  | p :: t, k => if p.1 = k then storeDel t k else p :: storeDel t k

/-- `DistributedLock.release`: the Lua script deletes the key only when its
current value equals this handle's token, returning the deletion count, which
the method converts to a boolean. -/
def release (s : Store) (h : LockHandle) : Store × Bool :=
  if storeGet s h.name = some h.token then (storeDel s h.name, true) else (s, false)

/-- `timeout or self.timeout`: the effective maximum wait of `acquire`
(`None` — and, by Python truthiness, `0` — falls back to the lease duration). -/
def maxWaitOf (timeout : Option Nat) (leaseTimeout : Nat) : Nat :=
  match timeout with
  | none => leaseTimeout
  | some t => if t = 0 then leaseTimeout else t

/-- The `while True` loop of `DistributedLock.acquire`, with iteration index
`i` and explicit fuel (`none` means the fuel ran out before the loop returned;
the termination theorem shows enough fuel always exists).  Per iteration: a
successful set-if-absent returns true; otherwise a non-blocking call returns
false at once; otherwise, when the elapsed wait `i * retryInterval` has reached
`maxWait`, false is returned; otherwise the loop sleeps and retries. -/
def acquireAux (attempts : Nat → Bool) (blocking : Bool) (maxWait retryInterval : Nat) :
    Nat → Nat → Option Bool
  | _, 0 => none
  | i, fuel + 1 =>
    if attempts i then some true
    else if !blocking then some false
    else if maxWait ≤ i * retryInterval then some false
    else acquireAux attempts blocking maxWait retryInterval (i + 1) fuel

/-- `DistributedLock.acquire` from the start of the loop. -/
def acquire (h : LockHandle) (attempts : Nat → Bool) (blocking : Bool)
    (timeout : Option Nat) (fuel : Nat) : Option Bool :=
  acquireAux attempts blocking (maxWaitOf timeout h.leaseTimeout) h.retryInterval 0 fuel

/-- Outcome of a scoped (`context`) or with-statement use of the lock. -/
inductive CtxOutcome (E A : Type) where
  | raisedAcquire : CtxOutcome E A
  | completed (a : A) : CtxOutcome E A
  | bodyRaised (e : E) : CtxOutcome E A
deriving DecidableEq, Repr

/-- `DistributedLock.context`: acquire, raise `RuntimeError` when acquisition
returned false, otherwise run the body inside try/finally so that `release` is
invoked on the normal and the raising exit path alike.  Returns the outcome
and whether `release` was invoked. -/
def contextRun {E A : Type} (acquired : Bool) (body : Except E A) :
    CtxOutcome E A × Bool :=
  if !acquired then (CtxOutcome.raisedAcquire, false)
  else
    match body with
    | Except.ok a => (CtxOutcome.completed a, true)
    | Except.error e => (CtxOutcome.bodyRaised e, true)

/-- Trace of a plain `with` statement on the lock. -/
structure WithTrace (E A : Type) where
  acquired : Option Bool
  outcome : CtxOutcome E A
  releaseAttempted : Bool
deriving DecidableEq, Repr

/-- The plain with-statement protocol (`__enter__`/`__exit__`): `__enter__`
calls `self.acquire()` (blocking, default timeout) and discards its boolean
result; the body runs regardless; `__exit__` calls `self.release()` and
returns False, so a body exception propagates. -/
def withStmt {E A : Type} (h : LockHandle) (attempts : Nat → Bool) (fuel : Nat)
    (body : Except E A) : WithTrace E A :=
  { acquired := acquire h attempts true none fuel
    outcome :=
      match body with
      | Except.ok a => CtxOutcome.completed a
      | Except.error e => CtxOutcome.bodyRaised e
    releaseAttempted := true }

/-! ## Warehouse loader (src/etl/loaders/warehouse_loader.py,
src/etl/utils/db_connection.py)

`psycopg2.extras.execute_batch(cur, sql, argslist, page_size)` splits the
argument list into pages of `page_size` tuples, mogrifies one statement per
tuple, joins each page's statements with ";" and executes the joined string
once per page.  After executing a multi-statement string, `cursor.rowcount`
reports the affected-row count of the last statement only, so after
`execute_batch` it reports the count of the last statement of the last page.
Whether one `INSERT ... ON CONFLICT DO NOTHING` of one row inserts (rowcount 1)
or is skipped (rowcount 0) is decided by the database; it is abstracted as the
oracle `rowInserted`. -/

/-- A Python dict row of `bulk_insert`'s input. -/
def Row := List (String × Value)

/-- `row.get(col)` (`None` when absent, modelled as null). -/
def rowGet (r : Row) (c : String) : Value :=
  match List.find? (fun p => p.1 = c) r with
  | some p => p.2
  | none => Value.null

/-- Accumulating chunker: `cur` is the current page, collected in reverse. -/
def chunksGo (n : Nat) : List (List Value) → List (List Value) → List (List (List Value))
  | cur, [] => if cur.isEmpty then [] else [cur.reverse]
  | cur, x :: xs =>
    if cur.length + 1 = n then (x :: cur).reverse :: chunksGo n [] xs
    else chunksGo n (x :: cur) xs

/-- `_paginate` of psycopg2: split a list into chunks of `n` (callers pass a
positive page size). -/
def paginate (n : Nat) (l : List (List Value)) : List (List (List Value)) :=
  chunksGo n [] l

/-- `cursor.rowcount` after `execute_batch` ran all pages: the affected-row
count of the last statement of the last page (psycopg2 initializes rowcount
to -1 when nothing was executed; `bulk_insert` never reaches that case on
non-empty data). -/
def lastStmtRowcount (pages : List (List (List Value))) (rowInserted : List Value → Bool) : Int :=
  match pages.getLast? with
  | none => -1
  | some pg =>
    match pg.getLast? with
    | none => -1
    | some v => if rowInserted v then 1 else 0

/-- `DatabaseConnection.bulk_insert` (which `WarehouseLoader.bulk_insert`
returns unchanged): empty data returns 0 with no statement issued; otherwise
the columns are the first row's keys, every row is projected onto them, the
projected tuples are batched into pages of `batch_size`, and the returned
count is `cursor.rowcount` after `execute_batch`.  The issued pages are
returned alongside for inspection. -/
def bulk_insert (data : List Row) (batch_size : Nat) (rowInserted : List Value → Bool) :
    Int × List (List (List Value)) :=
  match data with
  | [] => (0, [])
  | r0 :: _ =>
    let columns := r0.map Prod.fst
    let values := data.map (fun r => columns.map (fun c => rowGet r c))
    let pages := paginate batch_size values
    (lastStmtRowcount pages rowInserted, pages)

/-- The single parameterized statement and batched values `WarehouseLoader.upsert`
builds and hands to `execute_batch`. -/
structure UpsertCall where
  query : String
  update_columns : List String
  pages : List (List (List Value))
deriving DecidableEq, Repr

/-- `WarehouseLoader.upsert` up to the database call: defaults the update
columns to all non-conflict dataset columns, converts the DataFrame to
records, builds the `INSERT ... ON CONFLICT (...) DO UPDATE SET ...` statement
and the batched value pages.  The method performs no validation of
`conflict_columns`; no code path returns an error before the statement is
handed to the database, hence the result is always `Except.ok`. -/
def upsert (df : DataFrame) (table_name : String) (conflict_columns : List String)
    (update_columns? : Option (List String)) (batch_size : Nat) :
    Except String UpsertCall :=
  let update_columns :=
    match update_columns? with
    | some u => u
    | none => df.cols.filter (fun c => !(conflict_columns.contains c))
  let data : List Row := df.rows.map (fun r => df.cols.zip r)
  let columns := df.cols
  let placeholders := String.intercalate "," (columns.map (fun _ => "%s"))
  let column_names := String.intercalate "," columns
  let conflict_clause := String.intercalate "," conflict_columns
  let update_clause :=
    String.intercalate "," (update_columns.map (fun c => c ++ "=EXCLUDED." ++ c))
  let query :=
    "INSERT INTO " ++ table_name ++ " (" ++ column_names ++ ") VALUES (" ++
      placeholders ++ ") ON CONFLICT (" ++ conflict_clause ++ ") DO UPDATE SET " ++
      update_clause
  let values := data.map (fun r => columns.map (fun c => rowGet r c))
  Except.ok
    { query := query
      update_columns := update_columns
      pages := paginate batch_size values }

/-! ## Helper lemmas -/

/-- A conjunction of three `isNone` flags equals emptiness of the concatenated
`toList`s: the validators' `passed` flag (set false next to each append) agrees
with emptiness of the appended error entries. -/
theorem optIsNone_toList_isEmpty (o1 o2 o3 : Option ErrorDetail) :
    (o1.isNone && o2.isNone && o3.isNone) = (o1.toList ++ o2.toList ++ o3.toList).isEmpty := by
  cases o1 <;> cases o2 <;> cases o3 <;> rfl

/-- Same as `optIsNone_toList_isEmpty` with a trailing plain list, as in the
schema validator. -/
theorem optIsNone_list_isEmpty (o1 o2 : Option ErrorDetail) (l : List ErrorDetail) :
    (o1.isNone && o2.isNone && l.isEmpty) = (o1.toList ++ o2.toList ++ l).isEmpty := by
  cases o1 <;> cases o2 <;> cases l <;> rfl

/-! ## Claim theorems -/

/-- C1: for every validator kind (completeness, accuracy, consistency, schema)
and every input dataset and ruleset, the computed ValidationResult satisfies
`passed == (error_details is empty)`. -/
theorem c1_passed_iff_error_details_empty
    (df : DataFrame) (rc : List String) (nt : Rat) (mrc : Nat)
    (vr : List (String × Value × Value)) (cv : List (String × List Value))
    (rp : List (String × (String → Bool)))
    (cr : List (String × (List Value → Except String (List Bool))))
    (dt : List (String × String)) (uc : List String)
    (dfmt : List (String × (Value → Bool)))
    (cfr : List (String × String × (List Value → List Value → Except String (List Bool))))
    (sch : List (String × SchemaDef)) (aec : Bool) :
    (completenessCore df rc nt mrc).passed
        = (completenessCore df rc nt mrc).error_details.isEmpty
    ∧ (accuracyCore df vr cv rp cr).passed
        = (accuracyCore df vr cv rp cr).error_details.isEmpty
    ∧ (consistencyCore df dt uc dfmt cfr).passed
        = (consistencyCore df dt uc dfmt cfr).error_details.isEmpty
    ∧ (schemaCore df sch aec).passed = (schemaCore df sch aec).error_details.isEmpty :=
  ⟨optIsNone_toList_isEmpty _ _ _, rfl, rfl, optIsNone_list_isEmpty _ _ _⟩

/-- Single-row dataset on which the value-range check and the categorical
check of the accuracy validator both flag the same row. -/
def dfC8 : DataFrame :=
  { cols := ["price"], dtypes := ["int64"], rows := [[Value.int 500]] }

/-- The accuracy result for `dfC8` under a range check and a categorical
check that both fail on its one row. -/
def resC8 : ValidationResult :=
  accuracyCore dfC8 [("price", Value.int 0, Value.int 300)]
    [("price", [Value.int 150])] [] []

/-- C8 counterexample: on a dataset whose single row is flagged by two
accuracy checks (the claim's own scenario), `passed_records + failed_records`
equals `total_records` — it does not strictly exceed it, because the accuracy
validator computes `total_records` as `passed_count + failed_count`. -/
theorem c8_counterexample :
    resC8.error_details
        = [ErrorDetail.valueRange "price" 1, ErrorDetail.categoricalValues "price" 1]
    ∧ resC8.passed_records = 0
    ∧ resC8.failed_records = 2
    ∧ resC8.total_records = 2
    ∧ ¬(resC8.passed_records + resC8.failed_records > resC8.total_records) := by
  decide

/-- C8 amended: the accuracy validator always has
`total_records = passed_records + failed_records` (so the sum can never exceed
`total_records`); what the duplicated per-check counting inflates is the sum
relative to the dataset's row count, which it strictly exceeds when multiple
checks flag the same row, as on `dfC8`. -/
theorem c8_amended_total_is_sum :
    (∀ (df : DataFrame) (vr : List (String × Value × Value))
        (cv : List (String × List Value)) (rp : List (String × (String → Bool)))
        (cr : List (String × (List Value → Except String (List Bool)))),
      (accuracyCore df vr cv rp cr).total_records
        = (accuracyCore df vr cv rp cr).passed_records
            + (accuracyCore df vr cv rp cr).failed_records)
    ∧ resC8.passed_records + resC8.failed_records > dfC8.rows.length :=
  ⟨fun _ _ _ _ _ => rfl, by decide⟩

/-- Five one-column rows for the batched append scenario. -/
def dataC6 : List Row :=
  [[("id", Value.int 1)], [("id", Value.int 2)], [("id", Value.int 3)],
   [("id", Value.int 4)], [("id", Value.int 5)]]

/-- C6: `bulk_insert` with `batch_size=2` on 5 rows issues pages that cover
all 5 rows in order without loss or duplication, but the value it returns is
`cursor.rowcount` after `execute_batch`, i.e. the affected count of the last
statement of the last page: 1, not 5 (here every insert succeeds). -/
theorem c6_bulk_insert_rowcount :
    (bulk_insert dataC6 2 (fun _ => true)).2
        = [[[Value.int 1], [Value.int 2]], [[Value.int 3], [Value.int 4]], [[Value.int 5]]]
    ∧ ((bulk_insert dataC6 2 (fun _ => true)).2).flatten
        = [[Value.int 1], [Value.int 2], [Value.int 3], [Value.int 4], [Value.int 5]]
    ∧ (bulk_insert dataC6 2 (fun _ => true)).1 = 1
    ∧ (bulk_insert dataC6 2 (fun _ => true)).1 ≠ 5 := by
  decide

/-- Two-column DataFrame for the upsert scenario. -/
def dfC7 : DataFrame :=
  { cols := ["a", "b"], dtypes := ["int64", "int64"]
    rows := [[Value.int 1, Value.int 2]] }

/-- C7 counterexample: called with an empty conflict-column set, `upsert` does
not fail with a configuration error — it builds the statement with an empty
`ON CONFLICT ()` clause (defaulting the update columns to every dataset
column) and hands it to the database. -/
theorem c7_counterexample :
    (upsert dfC7 "analytics.positions" [] none 100).isOk = true
    ∧ (match upsert dfC7 "analytics.positions" [] none 100 with
       | Except.ok call => call.query
       | Except.error e => e)
        = "INSERT INTO analytics.positions (a,b) VALUES (%s,%s) ON CONFLICT () DO UPDATE SET a=EXCLUDED.a,b=EXCLUDED.b"
    ∧ (match upsert dfC7 "analytics.positions" [] none 100 with
       | Except.ok call => call.update_columns
       | Except.error _ => [])
        = ["a", "b"] := by
  decide

/-- C7 amended: `upsert` never raises before the database call — with any
conflict-column set, empty included, it proceeds to build and attempt the
write — and when `update_columns` is not supplied, the updated columns default
to exactly the dataset's columns that are not conflict columns. -/
theorem c7_amended_no_validation_and_update_default
    (df : DataFrame) (table : String) (cc : List String) (bs : Nat) :
    (upsert df table cc none bs).isOk = true
    ∧ (upsert df table cc none bs).map (fun call => call.update_columns)
        = Except.ok (df.cols.filter (fun c => !(cc.contains c))) :=
  ⟨rfl, rfl⟩

/-- Deleting one key leaves every other key's lookup unchanged. -/
theorem storeGet_storeDel_ne (s : Store) (n k : String) (hk : k ≠ n) :
    storeGet (storeDel s n) k = storeGet s k := by
  induction s with
  | nil => rfl
  | cons p t ih =>
    by_cases hp : p.1 = n
    · have hpk : ¬(p.1 = k) := fun hc => hk (by rw [← hc, hp])
      rw [storeDel, if_pos hp, storeGet, if_neg hpk]
      exact ih
    · rw [storeDel, if_neg hp]
      by_cases hpk : p.1 = k
      · rw [storeGet, if_pos hpk, storeGet, if_pos hpk]
      · rw [storeGet, if_neg hpk, storeGet, if_neg hpk]
        exact ih

/-- C2: `release` deletes the stored entry exactly when its current value is
this handle's owner token, returns true exactly when that deletion occurred,
leaves the store untouched when it returns false, and never disturbs any
other key. -/
theorem c2_release_compare_and_delete (s : Store) (h : LockHandle) :
    ((release s h).2 = true ↔ storeGet s h.name = some h.token)
    ∧ ((release s h).2 = true → (release s h).1 = storeDel s h.name)
    ∧ ((release s h).2 = false → (release s h).1 = s)
    ∧ (∀ t, storeGet s h.name = some t → t ≠ h.token → (release s h) = (s, false))
    ∧ (∀ k, k ≠ h.name → storeGet (release s h).1 k = storeGet s k) := by
  by_cases hc : storeGet s h.name = some h.token
  · refine ⟨by simp [release, hc], fun _ => by simp [release, hc], ?_, ?_, ?_⟩
    · intro hfalse; simp [release, hc] at hfalse
    · intro t ht hne; rw [hc] at ht; cases ht; exact absurd rfl hne
    · intro k hk; simp only [release, hc, if_pos rfl]
      exact storeGet_storeDel_ne s h.name k hk
  · refine ⟨by simp [release, hc], fun htrue => ?_, fun _ => by simp [release, hc], ?_, ?_⟩
    · simp [release, hc] at htrue
    · intro t _ _; simp [release, hc]
    · intro k _; simp [release, hc]

/-- Store in which the lock key is held by another owner's token. -/
def storeC2 : Store := [("etl:lock:load_positions", "token-B")]

/-- Handle whose token no longer matches the stored value. -/
def handleC2 : LockHandle :=
  { name := "etl:lock:load_positions", token := "token-A", leaseTimeout := 300, retryInterval := 1 }

/-- C2 witness: releasing with a stale token returns false and leaves the new
holder's entry in place. -/
theorem c2_release_compare_and_delete_witness :
    (release storeC2 handleC2).2 = false
    ∧ (release storeC2 handleC2).1 = storeC2
    ∧ storeGet (release storeC2 handleC2).1 "etl:lock:load_positions" = some "token-B" := by
  refine ⟨by decide, ?_, by decide⟩
  exact (c2_release_compare_and_delete storeC2 handleC2).2.2.1 (by decide)

/-- The acquire loop returns within `maxWait + 1` iterations when the retry
interval is positive: with fuel `f ≥ 1` and `maxWait + 1 ≤ f + i` the loop
starting at iteration `i` reaches a return. -/
theorem acquireAux_isSome (attempts : Nat → Bool) (blocking : Bool)
    (maxWait retryInterval : Nat) (hr : 1 ≤ retryInterval) :
    ∀ fuel i, 1 ≤ fuel → maxWait + 1 ≤ fuel + i →
      (acquireAux attempts blocking maxWait retryInterval i fuel).isSome = true := by
  intro fuel
  induction fuel with
  | zero => intro i h0 _; omega
  | succ f ih =>
    intro i _ hfi
    rw [acquireAux]
    by_cases ha : attempts i = true
    · rw [if_pos ha]; rfl
    · rw [if_neg ha]
      by_cases hbl : (!blocking) = true
      · rw [if_pos hbl]; rfl
      · rw [if_neg hbl]
        by_cases ht : maxWait ≤ i * retryInterval
        · rw [if_pos ht]; rfl
        · rw [if_neg ht]
          have hi : i ≤ i * retryInterval := Nat.le_mul_of_pos_right i hr
          exact ih (i + 1) (by omega) (by omega)

/-- A `some true` outcome of the acquire loop comes from a successful
set-if-absent attempt. -/
theorem acquireAux_some_true (attempts : Nat → Bool) (blocking : Bool)
    (maxWait retryInterval : Nat) :
    ∀ fuel i, acquireAux attempts blocking maxWait retryInterval i fuel = some true →
      ∃ j, attempts j = true := by
  intro fuel
  induction fuel with
  | zero => intro i h; simp [acquireAux] at h
  | succ f ih =>
    intro i h
    rw [acquireAux] at h
    by_cases ha : attempts i = true
    · exact ⟨i, ha⟩
    · rw [if_neg ha] at h
      by_cases hbl : (!blocking) = true
      · rw [if_pos hbl] at h; simp at h
      · rw [if_neg hbl] at h
        by_cases ht : maxWait ≤ i * retryInterval
        · rw [if_pos ht] at h; simp at h
        · rw [if_neg ht] at h
          exact ih (i + 1) h

/-- A blocking `some false` outcome happens only at an iteration whose failed
attempt found the elapsed wait `j * retryInterval` at or past `maxWait`. -/
theorem acquireAux_some_false (attempts : Nat → Bool) (maxWait retryInterval : Nat) :
    ∀ fuel i, acquireAux attempts true maxWait retryInterval i fuel = some false →
      ∃ j, attempts j = false ∧ maxWait ≤ j * retryInterval := by
  intro fuel
  induction fuel with
  | zero => intro i h; simp [acquireAux] at h
  | succ f ih =>
    intro i h
    rw [acquireAux] at h
    by_cases ha : attempts i = true
    · rw [if_pos ha] at h; simp at h
    · rw [if_neg ha] at h
      rw [if_neg (by decide : ¬((!true) = true))] at h
      by_cases ht : maxWait ≤ i * retryInterval
      · exact ⟨i, by simpa using ha, ht⟩
      · rw [if_neg ht] at h
        exact ih (i + 1) h

/-- C3: a non-blocking call whose first set-if-absent attempt fails returns
false with a single attempt and no retry; a blocking call terminates for every
input within `maxWait + 1` iterations (positive retry interval); a `true`
return reflects a successful set-if-absent and a blocking `false` return
happens only once the elapsed wait reached the effective timeout, which
defaults to the lease duration when no timeout argument is given. -/
theorem c3_acquire_bounded (attempts : Nat → Bool) (lease retry : Nat)
    (timeout : Option Nat) (hr : 1 ≤ retry) :
    (attempts 0 = false →
      acquireAux attempts false (maxWaitOf timeout lease) retry 0 1 = some false)
    ∧ (acquireAux attempts true (maxWaitOf timeout lease) retry 0
        (maxWaitOf timeout lease + 1)).isSome = true
    ∧ (∀ fuel i b, acquireAux attempts true (maxWaitOf timeout lease) retry i fuel = some b →
        (b = true → ∃ j, attempts j = true)
        ∧ (b = false → ∃ j, attempts j = false ∧ maxWaitOf timeout lease ≤ j * retry))
    ∧ maxWaitOf none lease = lease := by
  refine ⟨?_, ?_, ?_, rfl⟩
  · intro h0; simp [acquireAux, h0]
  · exact acquireAux_isSome attempts true (maxWaitOf timeout lease) retry hr
      (maxWaitOf timeout lease + 1) 0 (by omega) (by omega)
  · intro fuel i b hb
    constructor
    · intro hbt; subst hbt
      exact acquireAux_some_true attempts true (maxWaitOf timeout lease) retry fuel i hb
    · intro hbf; subst hbf
      exact acquireAux_some_false attempts (maxWaitOf timeout lease) retry fuel i hb

/-- C3 witness: with every attempt failing, a lease of 2 seconds and a retry
interval of 1 second, the non-blocking call returns false after one attempt
and the blocking call returns (false) within the fuel bound. -/
theorem c3_acquire_bounded_witness :
    (1 ≤ 1)
    ∧ acquireAux (fun _ => false) false (maxWaitOf none 2) 1 0 1 = some false
    ∧ (acquireAux (fun _ => false) true (maxWaitOf none 2) 1 0
        (maxWaitOf none 2 + 1)).isSome = true :=
  ⟨by decide,
   (c3_acquire_bounded (fun _ => false) 2 1 none (by decide)).1 (by decide),
   (c3_acquire_bounded (fun _ => false) 2 1 none (by decide)).2.1⟩

/-- C4: the scoped acquisition `context` raises exactly when `acquire`
returned false, and whenever acquisition succeeded it invokes `release` on
both exit paths of the enclosed scope — normal completion and a raising
body alike. -/
theorem c4_context_acquire_or_raise {E A : Type} (acquired : Bool) (body : Except E A) :
    ((contextRun acquired body).1 = CtxOutcome.raisedAcquire ↔ acquired = false)
    ∧ (acquired = true → (contextRun acquired body).2 = true) := by
  cases acquired <;> cases body <;> simp [contextRun]

/-- C4 witness: with acquisition succeeded and a raising body, release is
still invoked; with acquisition failed, the context raises. -/
theorem c4_context_acquire_or_raise_witness :
    (contextRun (E := Nat) (A := Nat) true (Except.error 3)).2 = true
    ∧ ((contextRun (E := Nat) (A := Nat) false (Except.ok 1)).1 = CtxOutcome.raisedAcquire) :=
  ⟨(c4_context_acquire_or_raise true (Except.error 3)).2 rfl,
   (c4_context_acquire_or_raise false (Except.ok 1)).1.mpr rfl⟩

/-- C9: under the plain with-statement protocol, the body's outcome is the
with-statement's outcome whatever `acquire` returned — in particular a failed
acquisition raises nothing and does not stop the body — and `__exit__` still
attempts `release` on exit. -/
theorem c9_with_statement_ignores_acquire {E A : Type} (h : LockHandle)
    (attempts : Nat → Bool) (fuel : Nat) (body : Except E A) :
    ((withStmt h attempts fuel body).outcome
        = match body with
          | Except.ok a => CtxOutcome.completed a
          | Except.error e => CtxOutcome.bodyRaised e)
    ∧ (withStmt h attempts fuel body).releaseAttempted = true
    ∧ ((withStmt h attempts fuel body).acquired = some false →
        (withStmt h attempts fuel body).outcome ≠ CtxOutcome.raisedAcquire) := by
  refine ⟨rfl, rfl, fun _ => ?_⟩
  cases body <;> simp [withStmt]

/-- Handle used in the C9 witness scenario. -/
def handleC9 : LockHandle :=
  { name := "etl:lock:load_positions", token := "token-C", leaseTimeout := 2, retryInterval := 1 }

/-- C9 witness: with every set-if-absent attempt failing, `__enter__`'s
blocking acquire returns false, yet no error is raised — the body runs to
completion and release is still attempted. -/
theorem c9_with_statement_ignores_acquire_witness :
    (withStmt (E := Nat) handleC9 (fun _ => false) 3 (Except.ok 7)).acquired = some false
    ∧ (withStmt (E := Nat) handleC9 (fun _ => false) 3 (Except.ok 7)).outcome
        = CtxOutcome.completed 7
    ∧ (withStmt (E := Nat) handleC9 (fun _ => false) 3 (Except.ok 7)).releaseAttempted = true
    ∧ (withStmt (E := Nat) handleC9 (fun _ => false) 3 (Except.ok 7)).outcome
        ≠ CtxOutcome.raisedAcquire := by
  refine ⟨by decide, by decide, ?_, ?_⟩
  · exact (c9_with_statement_ignores_acquire handleC9 (fun _ => false) 3 (Except.ok 7)).2.1
  · exact (c9_with_statement_ignores_acquire handleC9 (fun _ => false) 3
      (Except.ok 7)).2.2 (by decide)

/-- A list is a prefix of itself followed by anything, in boolean form. -/
theorem isPrefixOf_append_self (n t : List Char) : List.isPrefixOf n (n ++ t) = true := by
  induction n with
  | nil => cases t <;> rfl
  | cons c cs ih => simp [List.isPrefixOf, ih]

/-- `containsSeq` holds on any factor of a concatenation. -/
theorem containsSeq_of_infix {n h : List Char} (hi : n <:+: h) : containsSeq n h = true := by
  obtain ⟨s, t, rfl⟩ := hi
  unfold containsSeq
  rw [List.any_eq_true]
  refine ⟨s.length, List.mem_range.mpr ?_, ?_⟩
  · simp only [List.length_append]; omega
  · rw [List.append_assoc, List.drop_left]
    exact isPrefixOf_append_self n t

/-- C5: for a strict-mode validator, a non-passing computed result makes the
call fail with an error raised only after the summary was logged, whose
message names the validator, the kind, and the failed/total counts; for a
non-strict validator the call always returns the result and never raises. -/
theorem c5_strict_mode_raises_after_log (strict : Bool) (r : ValidationResult) :
    (strict = true → r.passed = false →
      (finishValidate strict r).2 = Except.error (failMsg r)
      ∧ (finishValidate strict r).1 = [VEvent.logSummary r, VEvent.raised (failMsg r)]
      ∧ containsSeq r.validator_name.data (failMsg r).data = true
      ∧ containsSeq r.validation_type.data (failMsg r).data = true
      ∧ containsSeq (toString r.failed_records).data (failMsg r).data = true
      ∧ containsSeq (toString r.total_records).data (failMsg r).data = true)
    ∧ (strict = false →
      (finishValidate strict r).1 = [VEvent.logSummary r]
      ∧ (finishValidate strict r).2 = Except.ok r) := by
  constructor
  · intro hs hp
    have hname : r.validator_name.data <:+: (failMsg r).data := by
      refine ⟨"Validation failed: ".data,
        (" - " ++ r.validation_type ++ ". Failed records: "
          ++ toString r.failed_records ++ "/" ++ toString r.total_records).data, ?_⟩
      simp [failMsg]
    have htype : r.validation_type.data <:+: (failMsg r).data := by
      refine ⟨("Validation failed: " ++ r.validator_name ++ " - ").data,
        (". Failed records: " ++ toString r.failed_records ++ "/"
          ++ toString r.total_records).data, ?_⟩
      simp [failMsg]
    have hfailed : (toString r.failed_records).data <:+: (failMsg r).data := by
      refine ⟨("Validation failed: " ++ r.validator_name ++ " - "
          ++ r.validation_type ++ ". Failed records: ").data,
        ("/" ++ toString r.total_records).data, ?_⟩
      simp [failMsg]
    have htotal : (toString r.total_records).data <:+: (failMsg r).data := by
      refine ⟨("Validation failed: " ++ r.validator_name ++ " - " ++ r.validation_type
          ++ ". Failed records: " ++ toString r.failed_records ++ "/").data, [], ?_⟩
      simp [failMsg]
    refine ⟨?_, ?_, containsSeq_of_infix hname, containsSeq_of_infix htype,
      containsSeq_of_infix hfailed, containsSeq_of_infix htotal⟩
    · simp [finishValidate, hs, hp]
    · simp [finishValidate, hs, hp]
  · intro hs
    constructor <;> simp [finishValidate, hs]

/-- Single-row dataset whose volume fails the accuracy range check, used for
the C5 witness. -/
def dfC5 : DataFrame :=
  { cols := ["volume"], dtypes := ["int64"], rows := [[Value.int (-5)]] }

/-- A non-passing accuracy result on `dfC5`. -/
def resC5 : ValidationResult :=
  accuracyCore dfC5 [("volume", Value.int 0, Value.int 10000)] [] [] []

/-- C5 witness: on a concrete non-passing result, the strict-mode call logs
then raises with the naming message, and the non-strict call returns the
result. -/
theorem c5_strict_mode_raises_after_log_witness :
    resC5.passed = false
    ∧ (finishValidate true resC5).2 = Except.error (failMsg resC5)
    ∧ (finishValidate true resC5).1
        = [VEvent.logSummary resC5, VEvent.raised (failMsg resC5)]
    ∧ containsSeq resC5.validator_name.data (failMsg resC5).data = true
    ∧ (finishValidate false resC5).1 = [VEvent.logSummary resC5]
    ∧ (finishValidate false resC5).2 = Except.ok resC5 := by
  have hpass : resC5.passed = false := by decide
  have hstrict := (c5_strict_mode_raises_after_log true resC5).1 rfl hpass
  have hlenient := (c5_strict_mode_raises_after_log false resC5).2 rfl
  exact ⟨hpass, hstrict.1, hstrict.2.1, hstrict.2.2.1, hlenient.1, hlenient.2⟩

/-- A raising custom rule leaves the accuracy check state untouched. -/
theorem customStep_of_error (df : DataFrame) (s : CheckState) (c : String)
    (f : List Value → Except String (List Bool)) (e : String)
    (hf : f (df.col c) = Except.error e) :
    customStep df s (c, f) = s := by
  by_cases hc : df.hasCol c = true
  · simp [customStep, hc, hf]
  · simp [customStep, hc]

/-- A raising cross-field comparison leaves the consistency check state
untouched. -/
theorem crossStep_of_error (df : DataFrame) (s : CheckState) (c1 c2 : String)
    (g : List Value → List Value → Except String (List Bool)) (e : String)
    (hg : g (df.col c1) (df.col c2) = Except.error e) :
    crossStep df s (c1, c2, g) = s := by
  by_cases hc : (df.hasCol c1 && df.hasCol c2) = true
  · simp [crossStep, hc, hg]
  · simp [crossStep, hc]

/-- A fold skips an element on which the step function is the identity. -/
theorem foldl_middle_id {α β : Type} (step : β → α → β) (x : α)
    (hx : ∀ s, step s x = s) (l1 l2 : List α) (init : β) :
    (l1 ++ x :: l2).foldl step init = (l1 ++ l2).foldl step init := by
  rw [List.foldl_append, List.foldl_append, List.foldl_cons, hx]

/-- C10: a caller-supplied predicate that raises — a custom rule in the
accuracy validator or a cross-field comparison in the consistency validator —
is caught in place: the failing check contributes no passed records, no failed
records and no error_details entry, so the result is exactly the one computed
without that check. -/
theorem c10_raising_predicate_is_skipped (df : DataFrame)
    (c : String) (f : List Value → Except String (List Bool)) (e : String)
    (c1 c2 : String) (g : List Value → List Value → Except String (List Bool)) (e' : String)
    (hf : f (df.col c) = Except.error e)
    (hg : g (df.col c1) (df.col c2) = Except.error e')
    (vr : List (String × Value × Value)) (cv : List (String × List Value))
    (rp : List (String × (String → Bool)))
    (crs1 crs2 : List (String × (List Value → Except String (List Bool))))
    (dt : List (String × String)) (uc : List String)
    (dfmt : List (String × (Value → Bool)))
    (cfs1 cfs2 : List (String × String × (List Value → List Value → Except String (List Bool)))) :
    accuracyCore df vr cv rp (crs1 ++ (c, f) :: crs2) = accuracyCore df vr cv rp (crs1 ++ crs2)
    ∧ consistencyCore df dt uc dfmt (cfs1 ++ (c1, c2, g) :: cfs2)
        = consistencyCore df dt uc dfmt (cfs1 ++ cfs2) := by
  have ha : ∀ init, (crs1 ++ (c, f) :: crs2).foldl (customStep df) init
      = (crs1 ++ crs2).foldl (customStep df) init :=
    fun init => foldl_middle_id (customStep df) (c, f)
      (fun s => customStep_of_error df s c f e hf) crs1 crs2 init
  have hb : ∀ init, (cfs1 ++ (c1, c2, g) :: cfs2).foldl (crossStep df) init
      = (cfs1 ++ cfs2).foldl (crossStep df) init :=
    fun init => foldl_middle_id (crossStep df) (c1, c2, g)
      (fun s => crossStep_of_error df s c1 c2 g e' hg) cfs1 cfs2 init
  constructor
  · simp only [accuracyCore, ha]
  · simp only [consistencyCore, hb]

/-- Two-column dataset for the C10 witness. -/
def dfC10 : DataFrame :=
  { cols := ["a", "b"], dtypes := ["int64", "int64"]
    rows := [[Value.int 1, Value.int 2]] }

/-- A custom rule that raises on every input. -/
def fC10 : List Value → Except String (List Bool) := fun _ => Except.error "boom"

/-- A cross-field comparison that raises on every input. -/
def gC10 : List Value → List Value → Except String (List Bool) :=
  fun _ _ => Except.error "crash"

/-- C10 witness: on a concrete dataset, a raising custom rule and a raising
cross-field comparison produce exactly the results computed without them. -/
theorem c10_raising_predicate_is_skipped_witness :
    fC10 (dfC10.col "a") = Except.error "boom"
    ∧ gC10 (dfC10.col "a") (dfC10.col "b") = Except.error "crash"
    ∧ accuracyCore dfC10 [] [] [] [("a", fC10)] = accuracyCore dfC10 [] [] [] []
    ∧ consistencyCore dfC10 [] [] [] [("a", "b", gC10)]
        = consistencyCore dfC10 [] [] [] [] := by
  have h := c10_raising_predicate_is_skipped dfC10 "a" fC10 "boom" "a" "b" gC10 "crash"
    rfl rfl [] [] [] [] [] [] [] [] [] []
  exact ⟨rfl, rfl, h.1, h.2⟩

end ETL
